import Mathlib

/-
Shallow embedding of the configuration-resolution logic and polling
coordinator of the `bluetti_bt` Home Assistant integration
(src/custom_components/bluetti_bt).  Pure/stateful Python code is embedded
as Lean functions over explicit state; flat Python dictionaries become
association lists of `ConfVal`; fallible operations return `Option` or
`Except`.

The repository ships `config_flow.py`, `coordinator.py`, `const.py` and
`types/FullDeviceConfig.py`.  The helper type files
(`types/InitialDeviceConfig.py`, `types/OptionalDeviceConfig.py`,
`types/ManufacturerData.py`) are referenced but not part of the sources,
so those three types are modelled from the specification; every such
definition carries a doc comment starting with `Modelled from the spec:`.
-/

/-- Values stored in the flat key-value records handed to the host
    (Python dictionary values): strings, integers, booleans, and the
    Python `None` value (`ConfVal.null`). -/
inductive ConfVal where
  | str (s : String)
  | int (n : Int)
  | bool (b : Bool)
  | null
deriving DecidableEq, Repr

/-- A flat key-value record (a Python `dict` restricted to the well-typed
    values the integration actually stores). -/
abbrev Raw := List (String × ConfVal)

/-- Dictionary lookup: `raw.get k` is `raw[k]` when the key is present. -/
def Raw.get (r : Raw) (k : String) : Option ConfVal :=
  (r.find? (fun kv => kv.1 == k)).map (fun kv => kv.2)

def ConfVal.asStr : ConfVal → Option String
  | .str s => some s
  | _ => Option.none

def ConfVal.asInt : ConfVal → Option Int
  | .int n => some n
  | _ => Option.none

def ConfVal.asBool : ConfVal → Option Bool
  | .bool b => some b
  | _ => Option.none

/-- Lookup of a string-valued key. -/
def Raw.getStr (r : Raw) (k : String) : Option String :=
  (r.get k).bind ConfVal.asStr

/-- Lookup of an integer-valued key. -/
def Raw.getInt (r : Raw) (k : String) : Option Int :=
  (r.get k).bind ConfVal.asInt

/-- Lookup of a boolean-valued key. -/
def Raw.getBool (r : Raw) (k : String) : Option Bool :=
  (r.get k).bind ConfVal.asBool

/-- Device-type key, from `const.py`: `CONF_DEVICE_TYPE = "device_type"`. -/
def CONF_DEVICE_TYPE : String := "device_type"

/-- Modelled from the spec: `InitialDeviceConfig`
    (types/InitialDeviceConfig.py is not among the sources) — identity
    established once at setup time: `address` (transport identifier),
    `name` (sanitized display name), `dev_type` (supported hardware model
    or "unknown"), `use_encryption` (from manufacturer metadata).
    Field order follows the constructor call in
    `config_flow.py` (`InitialDeviceConfig(address, name, dev_type,
    use_encryption)`). -/
structure InitialDeviceConfig where
  address : String
  name : String
  dev_type : String
  use_encryption : Bool
deriving DecidableEq, Repr

/-- Modelled from the spec: the flat record of an `InitialDeviceConfig`.
    The initial layer stores its device type under its own key `"type"`,
    distinct from the raw-record override key `CONF_DEVICE_TYPE =
    "device_type"` (the override step in `FullDeviceConfig.from_dict`
    reassigns `dev_type` after the initial layer has been parsed, so the
    two keys are distinct in the stored record). -/
def InitialDeviceConfig.asDict (c : InitialDeviceConfig) : Raw :=
  [("address", ConfVal.str c.address),
   ("name", ConfVal.str c.name),
   ("type", ConfVal.str c.dev_type),
   ("use_encryption", ConfVal.bool c.use_encryption)]

/-- Modelled from the spec: rebuilding the initial layer from a raw
    record; a missing or ill-typed identity field is a failure
    (`None`) — no partial device is created. -/
def InitialDeviceConfig.fromDict (raw : Raw) : Option InitialDeviceConfig :=
  match raw.getStr "address", raw.getStr "name",
        raw.getStr "type", raw.getBool "use_encryption" with
  | some a, some n, some t, some e => some ⟨a, n, t, e⟩
  | _, _, _, _ => Option.none

/-- Modelled from the spec: default `polling_interval` seconds applied
    when absent (the concrete default value is not given by the spec). -/
def DEFAULT_POLLING_INTERVAL : Int := 20

/-- Modelled from the spec: default `polling_timeout` seconds applied
    when absent (the concrete default value is not given by the spec). -/
def DEFAULT_POLLING_TIMEOUT : Int := 120

/-- Modelled from the spec: default `max_retries` applied when absent
    (the concrete default value is not given by the spec). -/
def DEFAULT_MAX_RETRIES : Int := 5

/-- Modelled from the spec: `OptionalDeviceConfig`
    (types/OptionalDeviceConfig.py is not among the sources) —
    user-tunable operational parameters: `polling_interval` (seconds,
    required > 0), `polling_timeout` (seconds, required > 0),
    `max_retries` (required non-negative). -/
structure OptionalDeviceConfig where
  polling_interval : Int
  polling_timeout : Int
  max_retries : Int
deriving DecidableEq, Repr

/-- Modelled from the spec: the dictionary encoding of an
    `OptionalDeviceConfig` (`as_dict` in the callers). -/
def OptionalDeviceConfig.asDict (c : OptionalDeviceConfig) : Raw :=
  [("polling_interval", ConfVal.int c.polling_interval),
   ("polling_timeout", ConfVal.int c.polling_timeout),
   ("max_retries", ConfVal.int c.max_retries)]

/-- Modelled from the spec: decoding an `OptionalDeviceConfig` from a raw
    record, defaults applied when a key is absent (`from_dict` in the
    callers; `config_flow.py` calls it on the empty dict to obtain the
    defaults). -/
def OptionalDeviceConfig.fromDict (raw : Raw) : OptionalDeviceConfig :=
  { polling_interval := (raw.getInt "polling_interval").getD DEFAULT_POLLING_INTERVAL,
    polling_timeout := (raw.getInt "polling_timeout").getD DEFAULT_POLLING_TIMEOUT,
    max_retries := (raw.getInt "max_retries").getD DEFAULT_MAX_RETRIES }

/-- Modelled from the spec: validation of an `OptionalDeviceConfig`,
    rejecting `polling_interval <= 0`, `polling_timeout <= 0` and
    negative `max_retries`, each with a distinct named reason; `none`
    means the value is valid (`config_flow.py` aborts the options step
    with the returned reason). -/
def OptionalDeviceConfig.validate (c : OptionalDeviceConfig) : Option String :=
  if c.polling_interval ≤ 0 then some "invalid_polling_interval"
  else if c.polling_timeout ≤ 0 then some "invalid_polling_timeout"
  else if c.max_retries < 0 then some "invalid_max_retries"
  else Option.none

/-- Modelled from the spec: `ManufacturerData`
    (types/ManufacturerData.py is not among the sources) — a compact
    encoding of `(dev_type, use_encryption)` carried inside discovery
    advertisements; `config_flow.py` constructs it as
    `ManufacturerData(recognized.name, recognized.encrypted)`. -/
structure ManufacturerData where
  dev_type : String
  use_encryption : Bool
deriving DecidableEq, Repr

/-- Modelled from the spec: dictionary encoding of `ManufacturerData`
    (`as_dict` in `config_flow.py`). -/
def ManufacturerData.asDict (m : ManufacturerData) : Raw :=
  [("dev_type", ConfVal.str m.dev_type),
   ("use_encryption", ConfVal.bool m.use_encryption)]

/-- Modelled from the spec: decoding `ManufacturerData` from the
    discovery metadata envelope (`from_dict` in `config_flow.py`); a
    missing device type decodes to "unknown", a missing encryption flag
    to `false`. -/
def ManufacturerData.fromDict (raw : Raw) : ManufacturerData :=
  { dev_type := (raw.getStr "dev_type").getD "unknown",
    use_encryption := (raw.getBool "use_encryption").getD false }

/-- `FullDeviceConfig` (types/FullDeviceConfig.py): the union of the
    initial and the optional layer, the single source of truth consumed
    by `PollingCoordinator`.  The Python `__init__` copies the seven
    fields out of the two layers; the structure holds exactly those
    fields. -/
structure FullDeviceConfig where
  address : String
  name : String
  dev_type : String
  use_encryption : Bool
  polling_interval : Int
  polling_timeout : Int
  max_retries : Int
deriving DecidableEq, Repr

/-- `FullDeviceConfig.__init__(initial, optional)`: field-by-field copy
    of the two layers. -/
def FullDeviceConfig.ofParts (i : InitialDeviceConfig) (o : OptionalDeviceConfig) :
    FullDeviceConfig :=
  { address := i.address,
    name := i.name,
    dev_type := i.dev_type,
    use_encryption := i.use_encryption,
    polling_interval := o.polling_interval,
    polling_timeout := o.polling_timeout,
    max_retries := o.max_retries }

/-- `FullDeviceConfig.from_dict(raw)`: parse the initial layer (failing
    with `None` when it fails), then let a device-type value stored
    under `CONF_DEVICE_TYPE` in the raw record override the parsed
    `dev_type` ("Manual override wins"), then attach the optional layer.
    The stored device type is a string in every record the integration
    writes, so the override is modelled on string values. -/
def FullDeviceConfig.fromDict (raw : Raw) : Option FullDeviceConfig :=
  match InitialDeviceConfig.fromDict raw with
  | Option.none => Option.none
  | some initial =>
    let initial :=
      match raw.get CONF_DEVICE_TYPE with
      | some (ConfVal.str t) => { initial with dev_type := t }
      | _ => initial
    some (FullDeviceConfig.ofParts initial (OptionalDeviceConfig.fromDict raw))

/-- Python's default `__eq__` on a plain class (no `__eq__` override, no
    `@dataclass`) compares object identity.  `types/FullDeviceConfig.py`
    defines `FullDeviceConfig` as a plain class, so an instance is a heap
    object: an identity together with its field values. -/
structure PyFullDeviceConfig where
  objectId : Nat
  val : FullDeviceConfig
deriving DecidableEq, Repr

/-- Python `==` on two `FullDeviceConfig` instances: the class defines no
    `__eq__`, so `object.__eq__` applies, which is identity comparison. -/
def PyFullDeviceConfig.pyEq (a b : PyFullDeviceConfig) : Bool :=
  a.objectId == b.objectId

/-- Name sanitization in `config_flow.py`:
    `re.sub("[^A-Z0-9]+", "", discovery_info.name)`.
    Replacing every maximal run of characters outside `[A-Z0-9]` with the
    empty string deletes exactly the characters outside the class, i.e.
    keeps the characters in `[A-Z0-9]` in order. -/
def isNameChar (c : Char) : Bool :=
  (decide ('A' ≤ c) && decide (c ≤ 'Z')) || (decide ('0' ≤ c) && decide (c ≤ '9'))

/-- `re.sub("[^A-Z0-9]+", "", s)` from `config_flow.py`. -/
def sanitizeName (s : String) : String :=
  String.mk (s.data.filter isNameChar)

/-- A discovery record (`BluetoothServiceInfoBleak`) as the config flow
    uses it: address, advertised name and the manufacturer-data
    envelope. -/
structure ServiceInfo where
  address : String
  name : String
  manufacturer_data : Raw
deriving DecidableEq, Repr

/-- The mutable state of `BluettiConfigFlow`: the cached
    `self._discovery_info` set by the bluetooth step. -/
structure ConfigFlowState where
  discovery_info : Option ServiceInfo
deriving DecidableEq, Repr

/-- The outcome of a flow step (`FlowResult`): a named abort, entry
    creation with a title and a flat data record, or showing a form whose
    address choices are listed. -/
inductive FlowResult where
  | abort (reason : String)
  | createEntry (title : String) (data : Raw)
  | showForm (choices : List (String × String))
deriving DecidableEq, Repr

/-- A submission of the user step: the selected address (required) and
    the optionally selected device type
    (`user_input.get(CONF_DEVICE_TYPE, "Auto Detect")`). -/
structure UserSubmission where
  address : String
  device_type : Option String
deriving DecidableEq, Repr

/-- The device filter of the scan branch of `async_step_user`:
    `name.startswith(("AC", "EB", "EP", "BLUETTI"))`, embedded as prefix
    tests on the character list. -/
def candidateName (name : String) : Bool :=
  "AC".data.isPrefixOf name.data || "EB".data.isPrefixOf name.data ||
  "EP".data.isPrefixOf name.data || "BLUETTI".data.isPrefixOf name.data

/-- The `choices` built by the scan branch of `async_step_user`: one
    entry per discovered candidate device, labelled
    `f"\x7bname\x7d (\x7baddress\x7d)"`. -/
def scanChoices (sis : List ServiceInfo) : List (String × String) :=
  (sis.filter (fun si => candidateName si.name)).map
    (fun si => (si.address, si.name ++ " (" ++ si.address ++ ")"))

/-- Resolution of the discovery record for a submitted address:
    `next((si for si in service_infos if si.address == address),
    self._discovery_info)`. -/
def lookupDiscovery (sis : List ServiceInfo) (addr : String)
    (cached : Option ServiceInfo) : Option ServiceInfo :=
  match sis.find? (fun si => si.address == addr) with
  | some si => some si
  | Option.none => cached

/-- `BluettiConfigFlow.async_step_user`.  Parameters: the set of
    already-configured unique ids (`_abort_if_unique_id_configured`), the
    point-in-time discovery snapshot
    (`bluetooth.async_discovered_service_info`), the flow state and the
    optional user submission.  Submission branch: resolve the discovery
    record (falling back to the cached one), abort "device_not_found"
    when none exists, abort when the address is already configured,
    sanitize the name, decode the manufacturer data, apply the manual
    device-type override, and create the entry from the initial record
    merged with the default optional record.  Scan branch: filter
    candidates; abort "no_devices_found" when there are none, otherwise
    show the form. -/
def asyncStepUser (configured : List String) (sis : List ServiceInfo)
    (st : ConfigFlowState) (userInput : Option UserSubmission) : FlowResult :=
  match userInput with
  | some u =>
    let manualType := u.device_type.getD "Auto Detect"
    match lookupDiscovery sis u.address st.discovery_info with
    | Option.none => FlowResult.abort "device_not_found"
    | some si =>
      if configured.contains u.address then FlowResult.abort "already_configured"
      else
        let name := sanitizeName si.name
        let md := ManufacturerData.fromDict si.manufacturer_data
        let devType := if manualType ≠ "Auto Detect" then manualType else md.dev_type
        let data : InitialDeviceConfig := ⟨u.address, name, devType, md.use_encryption⟩
        let optional := OptionalDeviceConfig.fromDict []
        FlowResult.createEntry name (data.asDict ++ optional.asDict)
  | Option.none =>
    let choices := scanChoices sis
    if choices.isEmpty then FlowResult.abort "no_devices_found"
    else FlowResult.showForm choices

/-- The answer of the external recognizer
    (`recognize_device(address, ...)`): `None` for an unsupported device,
    otherwise name, encryption flag, iot module version and full display
    name. -/
structure RecognizedDevice where
  name : String
  encrypted : Bool
  iot_version : String
  full_name : String
deriving DecidableEq, Repr

/-- `BluettiConfigFlow.async_step_bluetooth`: set the unique id and abort
    when it is already configured; call the recognizer and abort with
    "Device type not supported" when it returns `None`; otherwise stamp
    the recognized manufacturer data and name onto the discovery record,
    cache it in the flow state and continue with the user step (no
    input).  Returns the step result together with the flow state after
    the step. -/
def asyncStepBluetooth (configured : List String) (sis : List ServiceInfo)
    (st : ConfigFlowState) (discovery : ServiceInfo)
    (recognized : Option RecognizedDevice) : FlowResult × ConfigFlowState :=
  if configured.contains discovery.address then
    (FlowResult.abort "already_configured", st)
  else
    match recognized with
    | Option.none => (FlowResult.abort "Device type not supported", st)
    | some r =>
      let si : ServiceInfo :=
        { discovery with
          manufacturer_data := (ManufacturerData.mk r.name r.encrypted).asDict,
          name := r.full_name }
      let st2 : ConfigFlowState := { discovery_info := some si }
      (asyncStepUser configured sis st2 Option.none, st2)

/-- A stored config entry as the options flow sees it: the `data` record
    written at setup and the `options` record written by options edits. -/
structure ConfigEntry where
  data : Raw
  options : Raw
deriving DecidableEq, Repr

/-- Python dict merge `\x7b**a, **b\x7d`: keys of `b` win.  `Raw.get`
    takes the first hit, so listing `b` first gives `b` precedence. -/
def Raw.merge (a b : Raw) : Raw := b ++ a

/-- `OptionsFlowHandler.async_step_init`.  With a submission: decode the
    `OptionalDeviceConfig` from the input and validate it; on a named
    reason abort with it, leaving the entry untouched; otherwise update
    the entry data with the new optional record and create the options
    entry holding the optional record plus the selected device type
    (`user_input.get(CONF_DEVICE_TYPE)`, `None` when absent).  Without a
    submission: show the form (its schema is rendering glue; only the
    offered address/type choices matter to no claim, so the form carries
    no payload here).  Returns the step result and the entry after the
    step. -/
def optionsStepInit (entry : ConfigEntry) (userInput : Option Raw) :
    FlowResult × ConfigEntry :=
  match userInput with
  | some input =>
    let manualType := input.get CONF_DEVICE_TYPE
    let config := OptionalDeviceConfig.fromDict input
    match config.validate with
    | some reason => (FlowResult.abort reason, entry)
    | Option.none =>
      let newOptions : Raw :=
        config.asDict ++ [(CONF_DEVICE_TYPE, manualType.getD ConfVal.null)]
      let entry2 : ConfigEntry :=
        { data := Raw.merge entry.data config.asDict, options := newOptions }
      (FlowResult.createEntry "" newOptions, entry2)
  | Option.none => (FlowResult.showForm [], entry)

/-- A device object returned by the external `build_device(dev_type)`
    factory; opaque to the coordinator beyond being handed to the
    reader. -/
structure BluettiDevice where
  model : String
deriving DecidableEq, Repr

/-- The `DeviceReader` the coordinator constructs: address, device,
    `DeviceReaderConfig(polling_timeout, use_encryption)` and the shared
    lock (the lock is only stored, never acquired, during
    construction). -/
structure DeviceReader where
  address : String
  device : BluettiDevice
  polling_timeout : Int
  use_encryption : Bool
deriving DecidableEq, Repr

/-- The observable actions of `PollingCoordinator.__init__`, in program
    order.  `superInit` is the `DataUpdateCoordinator.__init__` call,
    which records the update interval but arms no timer;
    `acquireLock` and `startTimer` are listed so that their absence from
    every construction trace is expressible — the `__init__` body never
    performs either. -/
inductive InitEvent where
  | superInit (updateIntervalSeconds : Int)
  | buildDeviceCall (devType : String)
  | raiseConfigEntryNotReady (msg : String)
  | createReader (reader : DeviceReader)
  | acquireLock
  | startTimer
deriving DecidableEq, Repr

/-- The outcome of `PollingCoordinator.__init__`: the trace of its
    observable actions and, when construction succeeded, the reader it
    created. -/
structure CoordinatorInit where
  events : List InitEvent
  reader : Option DeviceReader
deriving DecidableEq, Repr

/-- `PollingCoordinator.__init__(hass, config, lock)`: call the base
    initializer with `update_interval = timedelta(seconds =
    config.polling_interval)`, call `build_device(config.dev_type)`, and
    when that returns `None` raise `ConfigEntryNotReady` with the
    unsupported-type message; otherwise construct the `DeviceReader`
    from the address, the device, the timeout and the encryption flag.
    `build_device` is external and passed as a function. -/
def pollingCoordinatorInit (config : FullDeviceConfig)
    (build_device : String → Option BluettiDevice) : CoordinatorInit :=
  let ev0 : List InitEvent :=
    [InitEvent.superInit config.polling_interval,
     InitEvent.buildDeviceCall config.dev_type]
  match build_device config.dev_type with
  | Option.none =>
    { events := ev0 ++
        [InitEvent.raiseConfigEntryNotReady
          ("Unsupported Bluetti device type: " ++ config.dev_type)],
      reader := Option.none }
  | some dev =>
    let reader : DeviceReader :=
      ⟨config.address, dev, config.polling_timeout, config.use_encryption⟩
    { events := ev0 ++ [InitEvent.createReader reader],
      reader := some reader }

/-- The outcome of one `_async_update_data` tick: the returned value (an
    `Except` so that a raising reader is representable) and the
    `last_update_success` flag after the tick. -/
structure UpdateOutcome (α : Type) where
  result : Except String (Option α)
  last_update_success : Bool

/-- `PollingCoordinator._async_update_data`: when
    `bluetooth.async_address_present(..., connectable=True) is False`,
    log, set `self.last_update_success = False` and return `None`;
    otherwise return `await self.reader.read()`.  The reachability test
    and the reader's answer are external and passed as arguments;
    `last` is the flag's value before the tick. -/
def asyncUpdateData {α : Type} (addressPresent : Bool)
    (readerRead : Except String (Option α)) (last : Bool) : UpdateOutcome α :=
  if addressPresent = false then
    { result := Except.ok Option.none, last_update_success := false }
  else
    { result := readerRead, last_update_success := last }

/- ## Shared helper lemmas -/

/-- Looking the initial-layer type key up in an initial record merged
    with any further record yields the stored `dev_type`. -/
theorem Raw.get_initial_type (d : InitialDeviceConfig) (rest : Raw) :
    Raw.get (d.asDict ++ rest) "type" = some (ConfVal.str d.dev_type) := rfl

/- ## Claim theorems -/

/-- C2: on a tick on which the device address is not
    present/connectable, `_async_update_data` returns `None` (it does
    not raise) and sets `last_update_success` to `False`; on a tick on
    which the device is reachable it returns exactly the externally
    supplied reader's answer, leaving the flag to the framework. -/
theorem C2_transient_read_failure :
    (∀ (α : Type) (readerRead : Except String (Option α)) (last : Bool),
      asyncUpdateData false readerRead last =
        { result := Except.ok Option.none, last_update_success := false }) ∧
    (∀ (α : Type) (readerRead : Except String (Option α)) (last : Bool),
      asyncUpdateData true readerRead last =
        { result := readerRead, last_update_success := last }) := by
  constructor <;> intro α readerRead last <;> rfl

/-- C5: when `build_device` answers `None` for the configured device
    type, `PollingCoordinator.__init__` raises `ConfigEntryNotReady`
    right after the base-initializer and factory calls; its trace holds
    no lock acquisition, no timer start and no reader creation, and no
    `DeviceReader` is produced. -/
theorem C5_construction_failure (config : FullDeviceConfig)
    (build_device : String → Option BluettiDevice)
    (h : build_device config.dev_type = Option.none) :
    pollingCoordinatorInit config build_device =
      { events :=
          [InitEvent.superInit config.polling_interval,
           InitEvent.buildDeviceCall config.dev_type,
           InitEvent.raiseConfigEntryNotReady
             ("Unsupported Bluetti device type: " ++ config.dev_type)],
        reader := Option.none } ∧
    InitEvent.acquireLock ∉ (pollingCoordinatorInit config build_device).events ∧
    InitEvent.startTimer ∉ (pollingCoordinatorInit config build_device).events ∧
    ∀ r : DeviceReader,
      InitEvent.createReader r ∉ (pollingCoordinatorInit config build_device).events := by
  refine ⟨?_, ?_, ?_, ?_⟩
  · simp [pollingCoordinatorInit, h]
  · simp [pollingCoordinatorInit, h]
  · simp [pollingCoordinatorInit, h]
  · intro r
    simp [pollingCoordinatorInit, h]

/-- C5 witness: a concrete configuration whose device type the factory
    rejects yields no reader. -/
theorem C5_construction_failure_witness :
    (pollingCoordinatorInit ⟨"AA:BB:CC", "NAME", "FOO", false, 10, 20, 3⟩
      (fun _ => Option.none)).reader = Option.none := by
  have h := C5_construction_failure ⟨"AA:BB:CC", "NAME", "FOO", false, 10, 20, 3⟩
    (fun _ => Option.none) rfl
  exact congrArg CoordinatorInit.reader h.1

/-- C6 counterexample: the code does not uppercase the advertised name
    before stripping, so sanitizing "Bluetti-AC200M_01" drops the
    lowercase letters and yields "BAC200M01", not the claimed
    "BLUETTIAC200M01". -/
theorem C6_sanitize_counterexample :
    sanitizeName "Bluetti-AC200M_01" = "BAC200M01" ∧
    sanitizeName "Bluetti-AC200M_01" ≠ "BLUETTIAC200M01" := by
  constructor
  · rfl
  · decide

/-- C6 (amended): name sanitization keeps exactly the characters inside
    `[A-Z0-9]`, in order — every output character is in the class, the
    output is a sublist of the input, no input character of the class is
    dropped — and sanitizing "Bluetti-AC200M_01" yields "BAC200M01". -/
theorem C6_sanitize_amended :
    (∀ (s : String) (c : Char), c ∈ (sanitizeName s).data → isNameChar c = true) ∧
    (∀ s : String, (sanitizeName s).data.Sublist s.data) ∧
    (∀ (s : String) (c : Char), c ∈ s.data → isNameChar c = true →
      c ∈ (sanitizeName s).data) ∧
    sanitizeName "Bluetti-AC200M_01" = "BAC200M01" := by
  refine ⟨?_, ?_, ?_, rfl⟩
  · intro s c hc
    exact (List.mem_filter.mp hc).2
  · intro s
    exact List.filter_sublist s.data
  · intro s c hc hname
    exact List.mem_filter.mpr ⟨hc, hname⟩

/-- C6 witness: the class membership and retention parts applied to the
    concrete name "B-b" and character 'B'. -/
theorem C6_sanitize_amended_witness :
    isNameChar 'B' = true ∧ 'B' ∈ (sanitizeName "B-b").data :=
  ⟨C6_sanitize_amended.1 "B-b" 'B' (by decide),
   C6_sanitize_amended.2.2.1 "B-b" 'B' (by decide) (by decide)⟩

/-- C7: a valid `OptionalDeviceConfig` round-trips through its
    dictionary encoding. -/
theorem C7_optional_roundtrip (x : OptionalDeviceConfig)
    (h : x.validate = Option.none) :
    OptionalDeviceConfig.fromDict (OptionalDeviceConfig.asDict x) = x := by
  cases x
  rfl

/-- C7 witness: the round trip at the concrete valid value
    `(10, 30, 2)`. -/
theorem C7_optional_roundtrip_witness :
    OptionalDeviceConfig.validate ⟨10, 30, 2⟩ = Option.none ∧
    OptionalDeviceConfig.fromDict (OptionalDeviceConfig.asDict ⟨10, 30, 2⟩) =
      ⟨10, 30, 2⟩ :=
  ⟨by decide, C7_optional_roundtrip ⟨10, 30, 2⟩ (by decide)⟩

/-- C10: whenever the initial layer fails to parse from a raw record,
    `FullDeviceConfig.from_dict` returns `None` as well, whatever else
    the record contains. -/
theorem C10_full_requires_initial (raw : Raw)
    (h : InitialDeviceConfig.fromDict raw = Option.none) :
    FullDeviceConfig.fromDict raw = Option.none := by
  unfold FullDeviceConfig.fromDict
  rw [h]

/-- C10 witness: a record carrying a device-type override and valid
    optional settings but no address still rebuilds to `None`. -/
theorem C10_full_requires_initial_witness :
    InitialDeviceConfig.fromDict
      [(CONF_DEVICE_TYPE, ConfVal.str "EB3A"),
       ("polling_interval", ConfVal.int 10),
       ("polling_timeout", ConfVal.int 30),
       ("max_retries", ConfVal.int 2)] = Option.none ∧
    FullDeviceConfig.fromDict
      [(CONF_DEVICE_TYPE, ConfVal.str "EB3A"),
       ("polling_interval", ConfVal.int 10),
       ("polling_timeout", ConfVal.int 30),
       ("max_retries", ConfVal.int 2)] = Option.none :=
  ⟨by decide,
   C10_full_requires_initial
     [(CONF_DEVICE_TYPE, ConfVal.str "EB3A"),
      ("polling_interval", ConfVal.int 10),
      ("polling_timeout", ConfVal.int 30),
      ("max_retries", ConfVal.int 2)] (by decide)⟩

/-- C4: in the options-edit flow, a submission whose decoded
    `OptionalDeviceConfig` fails validation is aborted with the returned
    reason before any entry update, so the stored entry stays unchanged;
    the three range violations each carry their own distinct reason. -/
theorem C4_options_validation (entry : ConfigEntry) (input : Raw) (reason : String)
    (h : (OptionalDeviceConfig.fromDict input).validate = some reason) :
    optionsStepInit entry (some input) = (FlowResult.abort reason, entry) ∧
    (∀ c : OptionalDeviceConfig, c.polling_interval ≤ 0 →
      c.validate = some "invalid_polling_interval") ∧
    (∀ c : OptionalDeviceConfig, 0 < c.polling_interval → c.polling_timeout ≤ 0 →
      c.validate = some "invalid_polling_timeout") ∧
    (∀ c : OptionalDeviceConfig, 0 < c.polling_interval → 0 < c.polling_timeout →
      c.max_retries < 0 → c.validate = some "invalid_max_retries") := by
  refine ⟨?_, ?_, ?_, ?_⟩
  · simp [optionsStepInit, h]
  · intro c h1
    simp [OptionalDeviceConfig.validate, h1]
  · intro c h1 h2
    have h1n : ¬ c.polling_interval ≤ 0 := by omega
    simp [OptionalDeviceConfig.validate, h1n, h2]
  · intro c h1 h2 h3
    have h1n : ¬ c.polling_interval ≤ 0 := by omega
    have h2n : ¬ c.polling_timeout ≤ 0 := by omega
    simp [OptionalDeviceConfig.validate, h1n, h2n, h3]

/-- C4 witness: submitting `polling_interval = 0` against a stored entry
    aborts with the interval reason and leaves the entry as it was. -/
theorem C4_options_validation_witness :
    (OptionalDeviceConfig.fromDict
      [("polling_interval", ConfVal.int 0)]).validate =
        some "invalid_polling_interval" ∧
    optionsStepInit ⟨[("polling_interval", ConfVal.int 7)], []⟩
      (some [("polling_interval", ConfVal.int 0)]) =
      (FlowResult.abort "invalid_polling_interval",
       ⟨[("polling_interval", ConfVal.int 7)], []⟩) :=
  ⟨by decide,
   (C4_options_validation ⟨[("polling_interval", ConfVal.int 7)], []⟩
     [("polling_interval", ConfVal.int 0)] "invalid_polling_interval"
     (by decide)).1⟩

/-- C9: with no submission and no discovered candidate name, the user
    step aborts with "no_devices_found"; with a submitted address that
    matches no discovery record while no cached record exists, it aborts
    with "device_not_found". -/
theorem C9_scan_aborts (configured : List String) (sis : List ServiceInfo)
    (st : ConfigFlowState) :
    ((∀ si ∈ sis, candidateName si.name = false) →
      asyncStepUser configured sis st Option.none =
        FlowResult.abort "no_devices_found") ∧
    (∀ u : UserSubmission, (∀ si ∈ sis, si.address ≠ u.address) →
      st.discovery_info = Option.none →
      asyncStepUser configured sis st (some u) =
        FlowResult.abort "device_not_found") := by
  constructor
  · intro h
    have hf : sis.filter (fun si => candidateName si.name) = [] := by
      rw [List.filter_eq_nil_iff]
      intro a ha
      simp [h a ha]
    simp [asyncStepUser, scanChoices, hf]
  · intro u h hd
    have hf : sis.find? (fun si => si.address == u.address) = Option.none := by
      rw [List.find?_eq_none]
      intro si hsi
      simpa using h si hsi
    simp [asyncStepUser, lookupDiscovery, hf, hd]

/-- C9 witness: one discovered non-candidate device gives
    "no_devices_found" on scan, and a submitted unknown address with no
    cached record gives "device_not_found". -/
theorem C9_scan_aborts_witness :
    asyncStepUser [] [⟨"AA", "XX", []⟩] ⟨Option.none⟩ Option.none =
      FlowResult.abort "no_devices_found" ∧
    asyncStepUser [] [⟨"AA", "XX", []⟩] ⟨Option.none⟩
      (some ⟨"BB", Option.none⟩) = FlowResult.abort "device_not_found" :=
  ⟨(C9_scan_aborts [] [⟨"AA", "XX", []⟩] ⟨Option.none⟩).1 (by decide),
   (C9_scan_aborts [] [⟨"AA", "XX", []⟩] ⟨Option.none⟩).2 ⟨"BB", Option.none⟩
     (by decide) rfl⟩

/-- C3: a bluetooth discovery for a not-yet-configured address whose
    recognizer call answers `None` makes the setup step abort with
    "Device type not supported"; the flow state is untouched and no
    entry is created. -/
theorem C3_unsupported_device_aborts (configured : List String)
    (sis : List ServiceInfo) (st : ConfigFlowState) (discovery : ServiceInfo)
    (h : configured.contains discovery.address = false) :
    asyncStepBluetooth configured sis st discovery Option.none =
      (FlowResult.abort "Device type not supported", st) := by
  have hn : ¬ discovery.address ∈ configured := by
    simpa using h
  simp [asyncStepBluetooth, h, hn]

/-- C3 witness: the abort at a concrete unconfigured discovery. -/
theorem C3_unsupported_device_aborts_witness :
    asyncStepBluetooth [] [] ⟨Option.none⟩ ⟨"AA:BB", "AC300", []⟩ Option.none =
      (FlowResult.abort "Device type not supported", ⟨Option.none⟩) :=
  C3_unsupported_device_aborts [] [] ⟨Option.none⟩ ⟨"AA:BB", "AC300", []⟩ rfl

/-- C1: device-type precedence.  (1) A submission selecting a concrete
    type B other than "Auto Detect" creates its entry with stored type
    B, whatever the metadata says; (2) a submission selecting
    "Auto Detect" (or not selecting) stores the metadata-recognized
    type of the resolved discovery record; (3) a device-type key in a
    raw record overrides the type parsed from the initial data when a
    `FullDeviceConfig` is rebuilt. -/
theorem C1_device_type_precedence :
    (∀ (configured : List String) (sis : List ServiceInfo) (st : ConfigFlowState)
       (u : UserSubmission) (B title : String) (data : Raw),
       u.device_type = some B → B ≠ "Auto Detect" →
       asyncStepUser configured sis st (some u) = FlowResult.createEntry title data →
       data.get "type" = some (ConfVal.str B)) ∧
    (∀ (configured : List String) (sis : List ServiceInfo) (st : ConfigFlowState)
       (u : UserSubmission) (si : ServiceInfo) (title : String) (data : Raw),
       (u.device_type = Option.none ∨ u.device_type = some "Auto Detect") →
       lookupDiscovery sis u.address st.discovery_info = some si →
       asyncStepUser configured sis st (some u) = FlowResult.createEntry title data →
       data.get "type" =
         some (ConfVal.str (ManufacturerData.fromDict si.manufacturer_data).dev_type)) ∧
    (∀ (raw : Raw) (t : String) (c : FullDeviceConfig),
       raw.get CONF_DEVICE_TYPE = some (ConfVal.str t) →
       FullDeviceConfig.fromDict raw = some c →
       c.dev_type = t) := by
  refine ⟨?_, ?_, ?_⟩
  · intro configured sis st u B title data hB hBne hres
    cases hld : lookupDiscovery sis u.address st.discovery_info with
    | none => simp [asyncStepUser, hld] at hres
    | some si =>
      by_cases hc : u.address ∈ configured
      · simp [asyncStepUser, hld, hc] at hres
      · simp [asyncStepUser, hld, hc, hB, hBne] at hres
        rw [← hres.2]
        exact Raw.get_initial_type _ _
  · intro configured sis st u si title data hB hld hres
    have hmt : u.device_type.getD "Auto Detect" = "Auto Detect" := by
      cases hB with
      | inl h => rw [h]; rfl
      | inr h => rw [h]; rfl
    by_cases hc : u.address ∈ configured
    · simp [asyncStepUser, hld, hc] at hres
    · simp [asyncStepUser, hld, hc, hmt] at hres
      rw [← hres.2]
      exact Raw.get_initial_type _ _
  · intro raw t c hget hfd
    unfold FullDeviceConfig.fromDict at hfd
    cases hinit : InitialDeviceConfig.fromDict raw with
    | none => rw [hinit] at hfd; exact absurd hfd (by simp)
    | some i =>
      rw [hinit] at hfd
      rw [hget] at hfd
      simp only [Option.some.injEq] at hfd
      subst hfd
      rfl

/-- C1 witness: the three precedence parts at concrete inputs — a
    concrete manual selection "EB3A" ends up stored, the "Auto Detect"
    path stores the metadata type ("unknown" for an empty metadata
    envelope), and a raw-record device-type key overrides the parsed
    initial type. -/
theorem C1_device_type_precedence_witness :
    Raw.get
      [("address", ConfVal.str "AA"), ("name", ConfVal.str "AC1"),
       ("type", ConfVal.str "EB3A"), ("use_encryption", ConfVal.bool false),
       ("polling_interval", ConfVal.int 20), ("polling_timeout", ConfVal.int 120),
       ("max_retries", ConfVal.int 5)] "type" = some (ConfVal.str "EB3A") ∧
    Raw.get
      [("address", ConfVal.str "AA"), ("name", ConfVal.str "AC1"),
       ("type", ConfVal.str "unknown"), ("use_encryption", ConfVal.bool false),
       ("polling_interval", ConfVal.int 20), ("polling_timeout", ConfVal.int 120),
       ("max_retries", ConfVal.int 5)] "type" = some (ConfVal.str "unknown") ∧
    FullDeviceConfig.dev_type ⟨"AA", "N", "EB3A", false, 20, 120, 5⟩ = "EB3A" :=
  ⟨C1_device_type_precedence.1 [] [⟨"AA", "AC1", []⟩] ⟨Option.none⟩
     ⟨"AA", some "EB3A"⟩ "EB3A" "AC1"
     [("address", ConfVal.str "AA"), ("name", ConfVal.str "AC1"),
      ("type", ConfVal.str "EB3A"), ("use_encryption", ConfVal.bool false),
      ("polling_interval", ConfVal.int 20), ("polling_timeout", ConfVal.int 120),
      ("max_retries", ConfVal.int 5)] rfl (by decide) rfl,
   C1_device_type_precedence.2.1 [] [⟨"AA", "AC1", []⟩] ⟨Option.none⟩
     ⟨"AA", Option.none⟩ ⟨"AA", "AC1", []⟩ "AC1"
     [("address", ConfVal.str "AA"), ("name", ConfVal.str "AC1"),
      ("type", ConfVal.str "unknown"), ("use_encryption", ConfVal.bool false),
      ("polling_interval", ConfVal.int 20), ("polling_timeout", ConfVal.int 120),
      ("max_retries", ConfVal.int 5)] (Or.inl rfl) rfl rfl,
   C1_device_type_precedence.2.2
     [("address", ConfVal.str "AA"), ("name", ConfVal.str "N"),
      ("type", ConfVal.str "AC300"), ("use_encryption", ConfVal.bool false),
      (CONF_DEVICE_TYPE, ConfVal.str "EB3A")] "EB3A"
     ⟨"AA", "N", "EB3A", false, 20, 120, 5⟩ rfl rfl⟩

/-- C8 counterexample: `FullDeviceConfig` is a plain Python class with
    no `__eq__`, so equality of two distinct instances with pairwise
    equal fields is identity comparison and returns `False`. -/
theorem C8_identity_eq_counterexample :
    (PyFullDeviceConfig.mk 0 ⟨"AA", "N", "EB3A", false, 10, 20, 3⟩).val =
      (PyFullDeviceConfig.mk 1 ⟨"AA", "N", "EB3A", false, 10, 20, 3⟩).val ∧
    PyFullDeviceConfig.pyEq
      (PyFullDeviceConfig.mk 0 ⟨"AA", "N", "EB3A", false, 10, 20, 3⟩)
      (PyFullDeviceConfig.mk 1 ⟨"AA", "N", "EB3A", false, 10, 20, 3⟩) = false :=
  ⟨rfl, rfl⟩

/-- C8 (amended): two `FullDeviceConfig` instances whose seven fields
    are pairwise equal carry the same field record and are
    interchangeable as input to the polling coordinator — though the
    class defines no `__eq__`, so Python `==` on distinct instances is
    identity comparison, not field comparison. -/
theorem C8_value_semantics_amended (a b : PyFullDeviceConfig)
    (h1 : a.val.address = b.val.address) (h2 : a.val.name = b.val.name)
    (h3 : a.val.dev_type = b.val.dev_type)
    (h4 : a.val.use_encryption = b.val.use_encryption)
    (h5 : a.val.polling_interval = b.val.polling_interval)
    (h6 : a.val.polling_timeout = b.val.polling_timeout)
    (h7 : a.val.max_retries = b.val.max_retries) :
    a.val = b.val ∧
    ∀ bd : String → Option BluettiDevice,
      pollingCoordinatorInit a.val bd = pollingCoordinatorInit b.val bd := by
  cases a with | mk ida va =>
  cases b with | mk idb vb =>
  cases va with | mk a1 a2 a3 a4 a5 a6 a7 =>
  cases vb with | mk b1 b2 b3 b4 b5 b6 b7 =>
  simp only [PyFullDeviceConfig.val] at h1 h2 h3 h4 h5 h6 h7
  subst h1 h2 h3 h4 h5 h6 h7
  exact ⟨rfl, fun bd => rfl⟩

/-- C8 witness: two concrete instances with distinct identities and
    equal fields have equal field records. -/
theorem C8_value_semantics_amended_witness :
    (PyFullDeviceConfig.mk 0 ⟨"AA", "N", "EB3A", false, 10, 20, 3⟩).val =
      (PyFullDeviceConfig.mk 5 ⟨"AA", "N", "EB3A", false, 10, 20, 3⟩).val :=
  (C8_value_semantics_amended
    (PyFullDeviceConfig.mk 0 ⟨"AA", "N", "EB3A", false, 10, 20, 3⟩)
    (PyFullDeviceConfig.mk 5 ⟨"AA", "N", "EB3A", false, 10, 20, 3⟩)
    rfl rfl rfl rfl rfl rfl rfl).1
